import Mathlib

/-
Verification development for the PredictorBot trading-signal engine.

The definitions below are shallow embeddings of the JavaScript source:
  - src/BinancePredictiveBot.js (the final orchestrator class, the copy the
    claims cite: lines 961-1863) for signal scoring, composite-signal
    decision, cooldown handling and depth-update processing;
  - the ExchangeManager source (src/unnamed/part_000) for
    processIncrementalDepthUpdate, deepCopyOrderBook and cleanupOrderBook.

JS numbers that only ever hold exact decimal market data (prices,
quantities, volumes, EMA values, multipliers) are modelled as rationals;
integer counters (update ids, timestamps) as naturals; accumulated scores
as integers.  JS truthiness of the lastUpdateId field (null or 0 are both
falsy) is modelled by lastUpdateId = 0.
-/

/-- A candle as stored by the bot: [openTime, open, high, low, close, volume].
    The CandleAnalyzer source file is not under src/; its accessor
    _getCandleProp (candle, volume) is modelled from the spec:
    a Candle is the tuple (openTime, open, high, low, close, volume), so the
    accessor is the projection to the volume component. -/
structure Candle where
  openTime : Nat
  open_ : ℚ
  high : ℚ
  low : ℚ
  close : ℚ
  volume : ℚ
deriving DecidableEq, Repr

/-- Projection of the volume component, modelled from the spec (the
    CandleAnalyzer file with the source of _getCandleProp is not in src/). -/
def getCandleVolume (c : Candle) : ℚ := c.volume

/-- Volume of candles[candles.length - 1]; the claims only quantify over
    non-empty candle windows, so the default for [] is never relevant. -/
def lastCandleVolume (candles : List Candle) : ℚ :=
  ((candles.getLast?).map getCandleVolume).getD 0

/-- The obSignals.pricePressure enumeration used by the scorer. -/
inductive PricePressure where
  | up
  | down
  | neutral
  | strong_up
  | strong_down
deriving DecidableEq, Repr, BEq

/-- The obSignals.compositeSignal enumeration. -/
inductive OBComposite where
  | strong_buy
  | buy
  | weak_buy
  | neutral
  | weak_sell
  | sell
  | strong_sell
deriving DecidableEq, Repr, BEq

/-- JS string test compositeSignal.includes of the text buy: true exactly for
    strong_buy, buy and weak_buy. -/
def includesBuy : OBComposite → Bool
  | .strong_buy => true
  | .buy => true
  | .weak_buy => true
  | _ => false

/-- JS string test compositeSignal.includes of the text sell: true exactly for
    strong_sell, sell and weak_sell. -/
def includesSell : OBComposite → Bool
  | .strong_sell => true
  | .sell => true
  | .weak_sell => true
  | _ => false

/-- The candle-derived signal record consumed by calculateSignalScore,
    detectDivergence and the validators. -/
structure CandleSignals where
  emaFast : ℚ
  emaMedium : ℚ
  emaSlow : ℚ
  volumeSpike : Bool
  volumeEMA : ℚ
  emaBullishCross : Bool
  emaBearishCross : Bool
  buyingPressure : Bool
  sellingPressure : Bool
  trendConfirmed : Bool
  downtrendConfirmed : Bool
  nearLowerBand : Bool
  nearUpperBand : Bool
  bbandsSqueeze : Bool
  isOverbought : Bool
  error : Bool
deriving DecidableEq, Repr

/-- The order-book-derived signal record consumed by the scorer. -/
structure OrderBookSignals where
  inDowntrend : Bool
  inUptrend : Bool
  strongBidImbalance : Bool
  strongAskImbalance : Bool
  supportDetected : Bool
  resistanceDetected : Bool
  pricePressure : PricePressure
  compositeSignal : OBComposite
deriving DecidableEq, Repr

/-- The slice of this.config.riskManagement that calculateSignalScore reads. -/
structure RiskManagement where
  volumeAverageMultiplier : ℚ
  useBollingerBands : Bool
deriving DecidableEq, Repr

/-- Result record of calculateSignalScore. -/
structure SignalScore where
  long : ℤ
  short : ℤ
deriving DecidableEq, Repr

/-- Source line 1641: hasStrongLongBase = emaBullishCross OR buyingPressure OR
    trendConfirmed OR volumeSpike. -/
def hasStrongLongBase (cs : CandleSignals) : Bool :=
  cs.emaBullishCross || cs.buyingPressure || cs.trendConfirmed || cs.volumeSpike

/-- Source line 1643: hasStrongShortBase = emaBearishCross OR sellingPressure OR
    downtrendConfirmed OR volumeSpike. -/
def hasStrongShortBase (cs : CandleSignals) : Bool :=
  cs.emaBearishCross || cs.sellingPressure || cs.downtrendConfirmed || cs.volumeSpike

/-- Source lines 1603 and 1606: local isUptrend and isDowntrend recomputed from
    the EMA ordering. -/
def candleIsUptrend (cs : CandleSignals) : Bool :=
  decide (cs.emaFast > cs.emaMedium) && decide (cs.emaMedium > cs.emaSlow)

/-- Strict downward EMA ordering, source line 1606. -/
def candleIsDowntrend (cs : CandleSignals) : Bool :=
  decide (cs.emaFast < cs.emaMedium) && decide (cs.emaMedium < cs.emaSlow)

/-- Source lines 1613-1614: isHighVolume = volumeSpike OR
    lastVolume > volumeEMA * volumeAverageMultiplier. -/
def isHighVolumeOf (cfg : RiskManagement) (cs : CandleSignals) (candles : List Candle) : Bool :=
  cs.volumeSpike ||
    decide (lastCandleVolume candles > cs.volumeEMA * cfg.volumeAverageMultiplier)

/-- Embedding of calculateSignalScore, src/BinancePredictiveBot.js lines
    1599-1726 (the final orchestrator copy).  Each ite summand is one of the
    JS statements of the form if (cond) score += k; the accumulations and the
    sequencing (gate, per-side accumulation guarded by the strong base,
    alignment bonus, cap by min against 10 or 5) follow the source order. -/
def calculateSignalScore (cfg : RiskManagement) (candleSignals : CandleSignals)
    (obSignals : OrderBookSignals) (candles : List Candle) : SignalScore :=
  let isUptrend := candleIsUptrend candleSignals
  let isDowntrend := candleIsDowntrend candleSignals
  let isHighVolume := isHighVolumeOf cfg candleSignals candles
  if !isHighVolume then { long := 0, short := 0 }
  else
    let longScore : ℤ :=
      if hasStrongLongBase candleSignals then
        (if candleSignals.emaBullishCross then 2 else 0)
        + (if candleSignals.buyingPressure then 2 else 0)
        + (if isUptrend then 1 else 0)
        + (if cfg.useBollingerBands then
            (if candleSignals.nearLowerBand then 1 else 0)
            + (if candleSignals.bbandsSqueeze then 0 else 0)
          else 0)
        + (if !candleSignals.isOverbought then 1 else 0)
        + 2
        + (if !obSignals.inDowntrend then
            (if obSignals.strongBidImbalance then 1 else 0)
            + (if obSignals.supportDetected then 1 else 0)
            + (if obSignals.pricePressure == PricePressure.up
                  || obSignals.pricePressure == PricePressure.strong_up then 1 else 0)
            + (if includesBuy obSignals.compositeSignal then 1 else 0)
          else -3)
      else 0
    let shortScore : ℤ :=
      if hasStrongShortBase candleSignals then
        (if candleSignals.emaBearishCross then 2 else 0)
        + (if candleSignals.sellingPressure then 2 else 0)
        + (if isDowntrend then 1 else 0)
        + (if cfg.useBollingerBands then
            (if candleSignals.nearUpperBand then 1 else 0)
            + (if candleSignals.bbandsSqueeze then 0 else 0)
          else 0)
        + (if candleSignals.isOverbought then 1 else 0)
        + 2
        + (if !obSignals.inUptrend then
            (if obSignals.strongAskImbalance then 1 else 0)
            + (if obSignals.resistanceDetected then 1 else 0)
            + (if obSignals.pricePressure == PricePressure.down
                  || obSignals.pricePressure == PricePressure.strong_down then 1 else 0)
            + (if includesSell obSignals.compositeSignal then 1 else 0)
          else -3)
      else 0
    let longScore := longScore
      + (if isUptrend && obSignals.inUptrend && hasStrongLongBase candleSignals then 2 else 0)
    let shortScore := shortScore
      + (if isDowntrend && obSignals.inDowntrend && hasStrongShortBase candleSignals then 2 else 0)
    let maxLongScore : ℤ := if hasStrongLongBase candleSignals then 10 else 5
    let maxShortScore : ℤ := if hasStrongShortBase candleSignals then 10 else 5
    { long := min longScore maxLongScore, short := min shortScore maxShortScore }

example :
    calculateSignalScore ⟨13/10, true⟩
      { emaFast := 1, emaMedium := 1, emaSlow := 1, volumeSpike := true, volumeEMA := 10
        emaBullishCross := false, emaBearishCross := false, buyingPressure := false
        sellingPressure := false, trendConfirmed := false, downtrendConfirmed := false
        nearLowerBand := false, nearUpperBand := false, bbandsSqueeze := false
        isOverbought := false, error := false }
      { inDowntrend := false, inUptrend := false, strongBidImbalance := false
        strongAskImbalance := false, supportDetected := false, resistanceDetected := false
        pricePressure := .neutral, compositeSignal := .neutral }
      [⟨0, 1, 1, 1, 1, 5⟩] = { long := 3, short := 2 } := by decide

/-- An order-book level: (price, quantity). -/
abbrev OBLevel : Type := ℚ × ℚ

/-- The per-pair order book maintained by the bot.  JS initialises
    lastUpdateId to null; null and 0 are both falsy in the only read
    (if currentOrderBook.lastUpdateId), so both are modelled by 0. -/
structure OrderBook where
  bids : List OBLevel
  asks : List OBLevel
  lastUpdateId : Nat
  timestamp : Nat
deriving DecidableEq, Repr

/-- A Binance incremental depth-update event {U, u, b, a}.  An absent b or a
    field skips the corresponding forEach in the source, which coincides with
    processing the empty list, so absent fields are modelled as []. -/
structure DepthEvent where
  U : Nat
  u : Nat
  b : List OBLevel
  a : List OBLevel
deriving DecidableEq, Repr

/-- ExchangeManager.deepCopyOrderBook (src/unnamed/part_000 lines 590-599):
    rebuilds the book field by field with fresh arrays.  On values this is the
    identity; the fresh-array part is what licenses modelling the subsequent
    in-place mutations of the copy as pure updates that leave the book of the caller
    book untouched. -/
def deepCopyOrderBook (b : OrderBook) : OrderBook :=
  { bids := b.bids, asks := b.asks, lastUpdateId := b.lastUpdateId, timestamp := b.timestamp }

/-- One (price, quantity) entry of the event: drop every stored level at that
    exact price, then push (price, quantity) at the end iff quantity > 0
    (source lines 562-578: filter on bid[0] !== numPrice, then push). -/
def applyLevelChange (side : List OBLevel) (chg : OBLevel) : List OBLevel :=
  let filtered := side.filter (fun lvl => decide (lvl.1 ≠ chg.1))
  if chg.2 > 0 then filtered ++ [chg] else filtered

/-- The forEach over one side of the event. -/
def applyLevelChanges (side : List OBLevel) (changes : List OBLevel) : List OBLevel :=
  changes.foldl applyLevelChange side

/-- ExchangeManager.cleanupOrderBook (src/unnamed/part_000 lines 602-629).
    Note: it is called BEFORE the sides are re-sorted, so bids[0] and asks[0]
    are the first levels in storage order, not necessarily the best prices;
    and if either side is empty it returns without pruning anything. -/
def cleanupOrderBook (b : OrderBook) : OrderBook :=
  if b.bids.length = 0 ∨ b.asks.length = 0 then b
  else
    match b.bids.head?, b.asks.head? with
    | some bestBid, some bestAsk =>
      let currentPrice := (bestBid.1 + bestAsk.1) / 2
      let cleanupRange : ℚ := 1/10
      let minPrice := currentPrice * (1 - cleanupRange)
      let maxPrice := currentPrice * (1 + cleanupRange)
      let bids := b.bids.filter (fun bid => decide (bid.1 ≥ minPrice))
      let asks := b.asks.filter (fun ask => decide (ask.1 ≤ maxPrice))
      let maxLevels := 500
      let bids := if bids.length > maxLevels then bids.take maxLevels else bids
      let asks := if asks.length > maxLevels then asks.take maxLevels else asks
      { b with bids := bids, asks := asks }
    | _, _ => b

/-- Comparator of the bid sort (a, b) => b[0] - a[0]: descending by price. -/
def bidLE (x y : OBLevel) : Prop := y.1 ≤ x.1

/-- Comparator of the ask sort (a, b) => a[0] - b[0]: ascending by price. -/
def askLE (x y : OBLevel) : Prop := x.1 ≤ y.1

instance : DecidableRel bidLE := fun x y => inferInstanceAs (Decidable (y.1 ≤ x.1))

instance : DecidableRel askLE := fun x y => inferInstanceAs (Decidable (x.1 ≤ y.1))

instance : IsTotal OBLevel bidLE := ⟨fun x y => le_total y.1 x.1⟩

instance : IsTotal OBLevel askLE := ⟨fun x y => le_total x.1 y.1⟩

instance : IsTrans OBLevel bidLE := ⟨fun _ _ _ h1 h2 => le_trans h2 h1⟩

instance : IsTrans OBLevel askLE := ⟨fun _ _ _ h1 h2 => le_trans h1 h2⟩

/-- The JS Array.prototype.sort with a total numeric comparator produces the
    (stable) sorted permutation of the array; insertionSort is such a sort. -/
def sortBids (l : List OBLevel) : List OBLevel := List.insertionSort bidLE l

/-- Ascending counterpart for the ask side. -/
def sortAsks (l : List OBLevel) : List OBLevel := List.insertionSort askLE l

/-- ExchangeManager.processIncrementalDepthUpdate
    (src/unnamed/part_000 lines 535-587; the identical method
    applyDepthUpdate of the orchestrator differs only by skipping the two
    sequence checks).  The first component is the returned value (none is the
    JS null GAP result); the second component is the currentOrderBook binding of the caller
    binding after the call.  The procedure never assigns to currentOrderBook:
    every mutation hits the fresh deep copy, so the second component is the
    unchanged input in every branch. -/
def processIncrementalDepthUpdate (data : DepthEvent) (currentOrderBook : Option OrderBook)
    (now : Nat) : Option OrderBook × Option OrderBook :=
  match currentOrderBook with
  | none =>
    (some { bids := data.b, asks := data.a, lastUpdateId := data.u, timestamp := now }, none)
  | some book =>
    if book.lastUpdateId ≠ 0 ∧ data.u ≤ book.lastUpdateId then
      (some book, some book)
    else if book.lastUpdateId ≠ 0 ∧ data.U > book.lastUpdateId + 100 then
      (none, some book)
    else
      let copy := deepCopyOrderBook book
      let copy := { copy with bids := applyLevelChanges copy.bids data.b }
      let copy := { copy with asks := applyLevelChanges copy.asks data.a }
      let copy := cleanupOrderBook copy
      let copy := { copy with
        bids := sortBids copy.bids
        asks := sortAsks copy.asks
        lastUpdateId := data.u
        timestamp := now }
      (some copy, some book)

/-- BinancePredictiveBot.applyDepthUpdate (lines 1354-1391 of the final
    orchestrator copy): identical to the update branch of
    processIncrementalDepthUpdate but with NO sequence validation at all.
    Always returns a book (a JS object, hence truthy). -/
def applyDepthUpdate (data : DepthEvent) (currentOrderBook : Option OrderBook)
    (now : Nat) : OrderBook :=
  match currentOrderBook with
  | none =>
    { bids := data.b, asks := data.a, lastUpdateId := data.u, timestamp := now }
  | some book =>
    let copy := deepCopyOrderBook book
    let copy := { copy with bids := applyLevelChanges copy.bids data.b }
    let copy := { copy with asks := applyLevelChanges copy.asks data.a }
    let copy := cleanupOrderBook copy
    { copy with
      bids := sortBids copy.bids
      asks := sortAsks copy.asks
      lastUpdateId := data.u
      timestamp := now }

/-- The per-pair mutable state touched by processDepthData (the candle data
    and the reinit timer side effects are irrelevant to the claims). -/
structure SymbolData where
  orderBook : OrderBook
  previousOrderBook : OrderBook
  bufferingUpdates : Bool
  needsReinitialization : Bool
deriving DecidableEq, Repr

/-- BinancePredictiveBot.processDepthData (lines 1316-1352 of the final
    orchestrator copy).  While bufferingUpdates is true the event is applied
    immediately to the current (pre-snapshot) book via applyDepthUpdate and
    the function returns; otherwise the previous book is saved, the update is
    validated and applied, and a null result flags reinitialization. -/
def processDepthData (s : SymbolData) (data : DepthEvent) (now : Nat) : SymbolData :=
  if s.bufferingUpdates then
    { s with orderBook := applyDepthUpdate data (some s.orderBook) now }
  else
    let s := { s with previousOrderBook := deepCopyOrderBook s.orderBook }
    match (processIncrementalDepthUpdate data (some s.orderBook) now).1 with
    | none => { s with needsReinitialization := true }
    | some updated => { s with orderBook := updated, needsReinitialization := false }

/-- Arrival of the authoritative REST snapshot
    (synchronizeOrderBookSnapshots, lines 1229-1254 of the final orchestrator
    copy): the stored book is replaced wholesale by the snapshot and the
    buffering window ends. -/
def snapshotArrives (s : SymbolData) (snapshot : OrderBook) : SymbolData :=
  { s with orderBook := snapshot, bufferingUpdates := false }

/-- The fold the caller performs over a stream of diffs: on a GAP (null)
    result processDepthData keeps the old book (and schedules a resync), on a
    returned book it stores it (lines 1338-1351). -/
def applyDiffs (b : OrderBook) (events : List (DepthEvent × Nat)) : OrderBook :=
  events.foldl
    (fun cur en =>
      match (processIncrementalDepthUpdate en.1 (some cur) en.2).1 with
      | none => cur
      | some updated => updated)
    b

example :
    processIncrementalDepthUpdate ⟨11, 11, [(100, 0)], []⟩
      (some { bids := [(100, 5)], asks := [(101, 5)], lastUpdateId := 10, timestamp := 0 }) 7
    = (some { bids := [], asks := [(101, 5)], lastUpdateId := 11, timestamp := 7 },
       some { bids := [(100, 5)], asks := [(101, 5)], lastUpdateId := 10, timestamp := 0 }) := by
  decide

/-- The discrete composite signal. -/
inductive Signal where
  | long
  | short
  | neutral
deriving DecidableEq, Repr, BEq

/-- Result record of detectDivergence. -/
structure Divergence where
  bearishDivergence : Bool
  bullishDivergence : Bool
deriving DecidableEq, Repr

/-- BinancePredictiveBot.detectDivergence (lines 1731-1761 of the final
    orchestrator copy). -/
def detectDivergence (cs : CandleSignals) (obs : OrderBookSignals) : Divergence :=
  { bearishDivergence :=
      (obs.strongBidImbalance
        || obs.compositeSignal == OBComposite.strong_buy
        || obs.compositeSignal == OBComposite.buy)
      && (obs.inDowntrend || cs.sellingPressure || cs.emaBearishCross
        || (!cs.buyingPressure && !cs.volumeSpike))
    bullishDivergence :=
      (obs.strongAskImbalance
        || obs.compositeSignal == OBComposite.strong_sell
        || obs.compositeSignal == OBComposite.sell)
      && (obs.inUptrend || cs.buyingPressure || cs.emaBullishCross
        || (!cs.sellingPressure && !cs.volumeSpike)) }

/-- REQUIRED_SCORE, set to 9 in the constructor (line 977). -/
def REQUIRED_SCORE : ℤ := 9

/-- BinancePredictiveBot.validateLongSignal (lines 1533-1564 of the final
    orchestrator copy).  JS returns the string neutral (truthy!) when a veto
    fires, the string long on success, and falls through to null when the
    score is below REQUIRED_SCORE; modelled as Option Signal with none for
    null. -/
def validateLongSignal (score : SignalScore) (divergence : Divergence)
    (candleSignals : CandleSignals) (obSignals : OrderBookSignals)
    (candles : List Candle) : Option Signal :=
  if score.long ≥ REQUIRED_SCORE then
    if divergence.bearishDivergence then some Signal.neutral
    else if obSignals.inDowntrend && !candleSignals.buyingPressure
        && !candleSignals.volumeSpike then some Signal.neutral
    else if !(candleSignals.emaBullishCross || candleSignals.buyingPressure
        || candleSignals.volumeSpike) && decide (score.long < 10) then some Signal.neutral
    else if decide (lastCandleVolume candles < candleSignals.volumeEMA * (1/2))
        && !candleSignals.buyingPressure then some Signal.neutral
    else some Signal.long
  else none

/-- BinancePredictiveBot.validateShortSignal (lines 1566-1597), the mirror of
    validateLongSignal. -/
def validateShortSignal (score : SignalScore) (divergence : Divergence)
    (candleSignals : CandleSignals) (obSignals : OrderBookSignals)
    (candles : List Candle) : Option Signal :=
  if score.short ≥ REQUIRED_SCORE then
    if divergence.bullishDivergence then some Signal.neutral
    else if obSignals.inUptrend && !candleSignals.sellingPressure
        && !candleSignals.volumeSpike then some Signal.neutral
    else if !(candleSignals.emaBearishCross || candleSignals.sellingPressure
        || candleSignals.volumeSpike) && decide (score.short < 10) then some Signal.neutral
    else if decide (lastCandleVolume candles < candleSignals.volumeEMA * (1/2))
        && !candleSignals.sellingPressure then some Signal.neutral
    else some Signal.short
  else none

/-- BinancePredictiveBot.determineCompositeSignal (lines 1518-1531 of the
    final orchestrator copy).  The caller always passes the already-computed
    signalScore (line 1457), so the score is a parameter here; JS
    if (longSignal) return longSignal fires on BOTH the long and the neutral
    string, hence the match on some. -/
def determineCompositeSignal (candleSignals : CandleSignals)
    (obSignals : OrderBookSignals) (candles : List Candle)
    (signalScore : SignalScore) : Signal :=
  if candleSignals.error then Signal.neutral
  else
    let divergence := detectDivergence candleSignals obSignals
    match validateLongSignal signalScore divergence candleSignals obSignals candles with
    | some s => s
    | none =>
      match validateShortSignal signalScore divergence candleSignals obSignals candles with
      | some s => s
      | none => Signal.neutral

/-- The per-pair cooldown configuration: tradingPairs[symbol]?.cooldown in
    minutes, none when the pair is not configured. -/
abbrev PairCooldownCfg : Type := String → Option Nat

/-- JS x || fallback on the optional cooldown: undefined and 0 both fall back
    (both are falsy). -/
def jsOrNat (x : Option Nat) (fallback : Nat) : Nat :=
  match x with
  | none => fallback
  | some v => if v = 0 then fallback else v

/-- The lastSignalTimes Map, as an association list symbol -> epoch-ms. -/
abbrev CooldownTable : Type := List (String × Nat)

/-- Map.prototype.get. -/
def tableGet (m : CooldownTable) (k : String) : Option Nat :=
  (m.find? (fun p => p.1 == k)).map (fun p => p.2)

/-- Map.prototype.set: overwrite in place when the key exists, append
    otherwise. -/
def tableSet (m : CooldownTable) (k : String) (v : Nat) : CooldownTable :=
  if m.any (fun p => p.1 == k) then
    m.map (fun p => if p.1 == k then (k, v) else p)
  else
    m ++ [(k, v)]

/-- BinancePredictiveBot.isInCooldown (lines 1764-1779 of the final
    orchestrator copy).  A stored timestamp of 0 would be falsy in JS and is
    treated like a missing entry. -/
def isInCooldown (cfg : PairCooldownCfg) (m : CooldownTable) (symbol : String)
    (now : Nat) : Bool :=
  let cooldown := jsOrNat (cfg symbol) 120
  match tableGet m symbol with
  | none => false
  | some lastSignal =>
    if lastSignal = 0 then false
    else
      let timeSinceLastSignal : ℤ := (now : ℤ) - (lastSignal : ℤ)
      let cooldownMs : ℤ := (cooldown : ℤ) * 60 * 1000
      decide (cooldownMs - timeSinceLastSignal > 0)

/-- BinancePredictiveBot.cleanupOldCooldowns (lines 1786-1797): lazily evict
    entries older than 24 hours. -/
def cleanupOldCooldowns (m : CooldownTable) (now : Nat) : CooldownTable :=
  m.filter (fun p => !decide ((now : ℤ) - (p.2 : ℤ) > 24 * 60 * 60 * 1000))

/-- BinancePredictiveBot.updateCooldown (lines 1781-1784). -/
def updateCooldown (m : CooldownTable) (symbol : String) (now : Nat) : CooldownTable :=
  cleanupOldCooldowns (tableSet m symbol now) now

/-- A dispatched Telegram alert (only its occurrence matters to the claims). -/
structure AlertRecord where
  pair : String
  signal : Signal
deriving DecidableEq, Repr

/-- BinancePredictiveBot.handleSignalAlert (lines 1492-1516 of the final
    orchestrator copy): returns the dispatched alert (none when nothing is
    sent) and the lastSignalTimes table after the call.  The suppressed
    branch (signal non-neutral but pair in cooldown) only logs. -/
def handleSignalAlert (cfg : PairCooldownCfg) (testMode : Bool)
    (m : CooldownTable) (symbol : String) (compositeSignal : Signal)
    (now : Nat) : Option AlertRecord × CooldownTable :=
  if !testMode
      && (compositeSignal == Signal.long || compositeSignal == Signal.short)
      && !isInCooldown cfg m symbol now then
    (some { pair := symbol, signal := compositeSignal }, updateCooldown m symbol now)
  else
    (none, m)

/-- Concrete configuration matching getBaseRiskManagement of the final
    orchestrator copy: volumeAverageMultiplier 1.3, useBollingerBands true. -/
def cfgA : RiskManagement := { volumeAverageMultiplier := 13/10, useBollingerBands := true }

/-- A one-candle window with volume 100. -/
def candlesA : List Candle :=
  [{ openTime := 0, open_ := 1, high := 1, low := 1, close := 1, volume := 100 }]

/-- Candle signals with a volume spike but no bullish cross and no buying
    pressure (the scenario of claim C2 and of the negative-score input). -/
def csSpikeOnly : CandleSignals :=
  { emaFast := 1, emaMedium := 1, emaSlow := 1, volumeSpike := true, volumeEMA := 10
    emaBullishCross := false, emaBearishCross := false, buyingPressure := false
    sellingPressure := false, trendConfirmed := false, downtrendConfirmed := false
    nearLowerBand := false, nearUpperBand := false, bbandsSqueeze := false
    isOverbought := false, error := false }

/-- Fully neutral order-book signals. -/
def obsNeutral : OrderBookSignals :=
  { inDowntrend := false, inUptrend := false, strongBidImbalance := false
    strongAskImbalance := false, supportDetected := false, resistanceDetected := false
    pricePressure := PricePressure.neutral, compositeSignal := OBComposite.neutral }

/-- Lower bound of a nonnegative conditional increment. -/
lemma iteZeroNonneg (b : Bool) (k : ℤ) (hk : 0 ≤ k) : 0 ≤ if b then k else 0 := by
  cases b <;> simp [hk]

/-- Lower bound of the order-book alignment block of the scorer: the whole
    else branch subtracts 3, the then branch only adds. -/
lemma obBlockLower (c b1 b2 b3 b4 : Bool) :
    -3 ≤ (if c then
      ((if b1 then (1:ℤ) else 0) + (if b2 then 1 else 0)
        + (if b3 then 1 else 0) + (if b4 then 1 else 0))
    else -3) := by
  cases c <;> cases b1 <;> cases b2 <;> cases b3 <;> cases b4 <;> norm_num

/-- Lower bound of the Bollinger block of the scorer. -/
lemma bbBlockLower (c b1 b2 : Bool) :
    0 ≤ (if c then ((if b1 then (1:ℤ) else 0) + (if b2 then (0:ℤ) else 0)) else 0) := by
  cases c <;> cases b1 <;> cases b2 <;> norm_num

/-- C1 counterexample: a concrete input on which the long score is negative,
    refuting the claimed lower bound 0.  With a volume spike as the only
    strong-base signal, RSI overbought and the order book in a downtrend, the
    long side accumulates only the +2 volume bonus and the -3 downtrend
    penalty, giving -1. -/
theorem calculateSignalScore_negative_counterexample :
    (calculateSignalScore cfgA
      { csSpikeOnly with isOverbought := true }
      { obsNeutral with inDowntrend := true }
      candlesA).long < 0 := by decide

/-- C1 (amended): both components of calculateSignalScore lie in
    [-1, capLong] resp. [-1, capShort], where the cap is 10 when the
    corresponding strong base held and 5 otherwise; the lower bound is -1,
    not 0, because the -3 order-book-misalignment penalty can outweigh the
    +2 mandatory-volume bonus. -/
theorem calculateSignalScore_bounds (cfg : RiskManagement) (cs : CandleSignals)
    (obs : OrderBookSignals) (candles : List Candle) (_hne : candles ≠ []) :
    -1 ≤ (calculateSignalScore cfg cs obs candles).long
    ∧ (calculateSignalScore cfg cs obs candles).long
      ≤ (if hasStrongLongBase cs then 10 else 5)
    ∧ -1 ≤ (calculateSignalScore cfg cs obs candles).short
    ∧ (calculateSignalScore cfg cs obs candles).short
      ≤ (if hasStrongShortBase cs then 10 else 5) := by
  clear _hne
  dsimp only [calculateSignalScore]
  split
  · refine ⟨by norm_num, ?_, by norm_num, ?_⟩ <;> split <;> norm_num
  · dsimp only
    have hcapL : (-1 : ℤ) ≤ (if hasStrongLongBase cs then 10 else 5) := by
      split <;> norm_num
    have hcapS : (-1 : ℤ) ≤ (if hasStrongShortBase cs then 10 else 5) := by
      split <;> norm_num
    have halignL : (0:ℤ) ≤ (if candleIsUptrend cs && obs.inUptrend && hasStrongLongBase cs
        then (2:ℤ) else 0) := iteZeroNonneg _ _ (by norm_num)
    have halignS : (0:ℤ) ≤ (if candleIsDowntrend cs && obs.inDowntrend && hasStrongShortBase cs
        then (2:ℤ) else 0) := iteZeroNonneg _ _ (by norm_num)
    have hbodyL : (-1:ℤ) ≤ (if hasStrongLongBase cs then
        (if cs.emaBullishCross then (2:ℤ) else 0)
        + (if cs.buyingPressure then 2 else 0)
        + (if candleIsUptrend cs then 1 else 0)
        + (if cfg.useBollingerBands then
            (if cs.nearLowerBand then 1 else 0)
            + (if cs.bbandsSqueeze then 0 else 0)
          else 0)
        + (if !cs.isOverbought then 1 else 0)
        + 2
        + (if !obs.inDowntrend then
            (if obs.strongBidImbalance then 1 else 0)
            + (if obs.supportDetected then 1 else 0)
            + (if obs.pricePressure == PricePressure.up
                  || obs.pricePressure == PricePressure.strong_up then 1 else 0)
            + (if includesBuy obs.compositeSignal then 1 else 0)
          else -3)
      else 0) := by
      split
      · have h1 := iteZeroNonneg cs.emaBullishCross (2:ℤ) (by norm_num)
        have h2 := iteZeroNonneg cs.buyingPressure (2:ℤ) (by norm_num)
        have h3 := iteZeroNonneg (candleIsUptrend cs) (1:ℤ) (by norm_num)
        have h4 := bbBlockLower cfg.useBollingerBands cs.nearLowerBand cs.bbandsSqueeze
        have h5 := iteZeroNonneg (!cs.isOverbought) (1:ℤ) (by norm_num)
        have h6 := obBlockLower (!obs.inDowntrend) obs.strongBidImbalance obs.supportDetected
          (obs.pricePressure == PricePressure.up || obs.pricePressure == PricePressure.strong_up)
          (includesBuy obs.compositeSignal)
        omega
      · norm_num
    have hbodyS : (-1:ℤ) ≤ (if hasStrongShortBase cs then
        (if cs.emaBearishCross then (2:ℤ) else 0)
        + (if cs.sellingPressure then 2 else 0)
        + (if candleIsDowntrend cs then 1 else 0)
        + (if cfg.useBollingerBands then
            (if cs.nearUpperBand then 1 else 0)
            + (if cs.bbandsSqueeze then 0 else 0)
          else 0)
        + (if cs.isOverbought then 1 else 0)
        + 2
        + (if !obs.inUptrend then
            (if obs.strongAskImbalance then 1 else 0)
            + (if obs.resistanceDetected then 1 else 0)
            + (if obs.pricePressure == PricePressure.down
                  || obs.pricePressure == PricePressure.strong_down then 1 else 0)
            + (if includesSell obs.compositeSignal then 1 else 0)
          else -3)
      else 0) := by
      split
      · have h1 := iteZeroNonneg cs.emaBearishCross (2:ℤ) (by norm_num)
        have h2 := iteZeroNonneg cs.sellingPressure (2:ℤ) (by norm_num)
        have h3 := iteZeroNonneg (candleIsDowntrend cs) (1:ℤ) (by norm_num)
        have h4 := bbBlockLower cfg.useBollingerBands cs.nearUpperBand cs.bbandsSqueeze
        have h5 := iteZeroNonneg cs.isOverbought (1:ℤ) (by norm_num)
        have h6 := obBlockLower (!obs.inUptrend) obs.strongAskImbalance obs.resistanceDetected
          (obs.pricePressure == PricePressure.down
            || obs.pricePressure == PricePressure.strong_down)
          (includesSell obs.compositeSignal)
        omega
      · norm_num
    refine ⟨le_min (by omega) hcapL, min_le_right _ _, le_min (by omega) hcapS, min_le_right _ _⟩

/-- C1 witness: the bounds theorem applied at a concrete input. -/
theorem calculateSignalScore_bounds_witness :
    candlesA ≠ []
    ∧ -1 ≤ (calculateSignalScore cfgA csSpikeOnly obsNeutral candlesA).long
    ∧ (calculateSignalScore cfgA csSpikeOnly obsNeutral candlesA).long
      ≤ (if hasStrongLongBase csSpikeOnly then 10 else 5) :=
  ⟨by decide,
    (calculateSignalScore_bounds cfgA csSpikeOnly obsNeutral candlesA (by decide)).1,
    (calculateSignalScore_bounds cfgA csSpikeOnly obsNeutral candlesA (by decide)).2.1⟩

/-- C2 counterexample: with buyingPressure and emaBullishCross both false but
    a volume spike on the last candle, the long strong base still holds (the
    code also accepts trendConfirmed and volumeSpike as base signals), and the
    long score is 3, not 0 as the claim asserts. -/
theorem strongLongBase_counterexample :
    csSpikeOnly.buyingPressure = false
    ∧ csSpikeOnly.emaBullishCross = false
    ∧ csSpikeOnly.volumeSpike = true
    ∧ hasStrongLongBase csSpikeOnly = true
    ∧ (calculateSignalScore cfgA csSpikeOnly obsNeutral candlesA).long ≠ 0 := by decide

/-- C2 (amended): the long strong base is emaBullishCross OR buyingPressure OR
    trendConfirmed OR volumeSpike, and the short strong base is
    emaBearishCross OR sellingPressure OR downtrendConfirmed OR volumeSpike;
    when the base of a side is absent the accumulation of that side and alignment bonus
    are skipped and its score is exactly 0.  (A volume spike on the last
    candle therefore MAKES the long base hold, so the claimed consequence for
    volumeSpike=true inputs is the one refuted by the counterexample.) -/
theorem calculateSignalScore_base_gate (cfg : RiskManagement) (cs : CandleSignals)
    (obs : OrderBookSignals) (candles : List Candle) :
    (hasStrongLongBase cs = false → (calculateSignalScore cfg cs obs candles).long = 0)
    ∧ (hasStrongShortBase cs = false → (calculateSignalScore cfg cs obs candles).short = 0) := by
  constructor
  · intro h
    dsimp only [calculateSignalScore]
    split
    · rfl
    · simp [h]
  · intro h
    dsimp only [calculateSignalScore]
    split
    · rfl
    · simp [h]

/-- C2 witness: the base-gate theorem applied at a concrete input with no
    long-base signal at all. -/
theorem calculateSignalScore_base_gate_witness :
    hasStrongLongBase { csSpikeOnly with volumeSpike := false } = false
    ∧ (calculateSignalScore cfgA { csSpikeOnly with volumeSpike := false }
        obsNeutral candlesA).long = 0 :=
  ⟨by decide,
    (calculateSignalScore_base_gate cfgA { csSpikeOnly with volumeSpike := false }
      obsNeutral candlesA).1 (by decide)⟩

/-- C8 (confirmed): when the last candle shows no volume spike and its volume
    does not exceed volumeEMA times the configured multiplier, the scorer
    returns exactly (0, 0) whatever the other signals are. -/
theorem calculateSignalScore_volume_gate (cfg : RiskManagement) (cs : CandleSignals)
    (obs : OrderBookSignals) (candles : List Candle)
    (hspike : cs.volumeSpike = false)
    (hvol : ¬ lastCandleVolume candles > cs.volumeEMA * cfg.volumeAverageMultiplier) :
    calculateSignalScore cfg cs obs candles = { long := 0, short := 0 } := by
  have hgate : isHighVolumeOf cfg cs candles = false := by
    simp [isHighVolumeOf, hspike, hvol]
  dsimp only [calculateSignalScore]
  simp [hgate]

/-- Candle signals with strong directional signals but low volume: no spike
    and last-candle volume not above volumeEMA times the multiplier. -/
def csLowVolume : CandleSignals :=
  { csSpikeOnly with
      volumeSpike := false
      volumeEMA := 100
      emaBullishCross := true
      buyingPressure := true
      emaBearishCross := true
      sellingPressure := true }

/-- Order-book signals asserting strength on both sides. -/
def obsStrong : OrderBookSignals :=
  { obsNeutral with strongBidImbalance := true, supportDetected := true }

/-- C8 witness: the volume gate applied at a concrete input (volume 100, EMA
    100, multiplier 1.3, no spike) with non-neutral other signals. -/
theorem calculateSignalScore_volume_gate_witness :
    calculateSignalScore cfgA csLowVolume obsStrong candlesA = { long := 0, short := 0 } :=
  calculateSignalScore_volume_gate cfgA csLowVolume obsStrong candlesA
    (by decide) (by with_unfolding_all decide)

/-- C3 (confirmed): a depth event whose last update id u is at most the
    current lastUpdateId (which is set, i.e. truthy) is ignored: the call
    returns the current book itself and the book held by the caller is untouched, so
    bids, asks, lastUpdateId and timestamp are all identical to the input. -/
theorem processIncrementalDepthUpdate_stale (book : OrderBook) (e : DepthEvent) (now : Nat)
    (hset : book.lastUpdateId ≠ 0) (hstale : e.u ≤ book.lastUpdateId) :
    processIncrementalDepthUpdate e (some book) now = (some book, some book) := by
  simp only [processIncrementalDepthUpdate]
  rw [if_pos ⟨hset, hstale⟩]

/-- C3 witness: the stale-event theorem at the concrete book of the spec
    example (lastUpdateId 10) and an event with u = 10. -/
theorem processIncrementalDepthUpdate_stale_witness :
    processIncrementalDepthUpdate ⟨10, 10, [(100, 7)], []⟩
      (some { bids := [(100, 5)], asks := [(101, 5)], lastUpdateId := 10, timestamp := 3 }) 9
    = (some { bids := [(100, 5)], asks := [(101, 5)], lastUpdateId := 10, timestamp := 3 },
       some { bids := [(100, 5)], asks := [(101, 5)], lastUpdateId := 10, timestamp := 3 }) :=
  processIncrementalDepthUpdate_stale
    { bids := [(100, 5)], asks := [(101, 5)], lastUpdateId := 10, timestamp := 3 }
    ⟨10, 10, [(100, 7)], []⟩ 9 (by decide) (by decide)

/-- C4 (confirmed): a depth event (U ≤ u, as every Binance diff satisfies)
    whose first update id U exceeds lastUpdateId + 100 yields the GAP result
    null and leaves the book held by the caller untouched. -/
theorem processIncrementalDepthUpdate_gap (book : OrderBook) (e : DepthEvent) (now : Nat)
    (hset : book.lastUpdateId ≠ 0) (hwf : e.U ≤ e.u)
    (hgap : e.U > book.lastUpdateId + 100) :
    processIncrementalDepthUpdate e (some book) now = (none, some book) := by
  have hnotstale : ¬ (book.lastUpdateId ≠ 0 ∧ e.u ≤ book.lastUpdateId) := by
    rintro ⟨-, h⟩; omega
  simp only [processIncrementalDepthUpdate]
  rw [if_neg hnotstale, if_pos ⟨hset, hgap⟩]

/-- C4 witness: the gap theorem at the book of the spec example
    (lastUpdateId 100) and an event with U = 250. -/
theorem processIncrementalDepthUpdate_gap_witness :
    processIncrementalDepthUpdate ⟨250, 251, [(100, 7)], []⟩
      (some { bids := [(100, 5)], asks := [(101, 5)], lastUpdateId := 100, timestamp := 3 }) 9
    = (none, some { bids := [(100, 5)], asks := [(101, 5)], lastUpdateId := 100, timestamp := 3 }) :=
  processIncrementalDepthUpdate_gap
    { bids := [(100, 5)], asks := [(101, 5)], lastUpdateId := 100, timestamp := 3 }
    ⟨250, 251, [(100, 7)], []⟩ 9 (by decide) (by decide) (by decide)

/-- C10 (confirmed): while a pair is inside its configured cooldown window, a
    qualifying long or short decision dispatches no alert and leaves the
    lastSignalTimes table (hence the cooldown timer) unchanged. -/
theorem handleSignalAlert_cooldown_suppression (cfg : PairCooldownCfg) (m : CooldownTable)
    (symbol : String) (sig : Signal) (now : Nat)
    (hsig : sig = Signal.long ∨ sig = Signal.short)
    (hcd : isInCooldown cfg m symbol now = true) :
    handleSignalAlert cfg false m symbol sig now = (none, m) := by
  unfold handleSignalAlert
  rcases hsig with h | h <;> simp [h, hcd]

/-- C10 witness: suppression at a concrete table: BTCUSDT signalled at epoch
    1000 with a 10-minute configured cooldown, second long decision at epoch
    1001. -/
theorem handleSignalAlert_cooldown_suppression_witness :
    handleSignalAlert (fun s => if s == "BTCUSDT" then some 10 else none) false
      [("BTCUSDT", 1000)] "BTCUSDT" Signal.long 1001
    = (none, [("BTCUSDT", 1000)]) :=
  handleSignalAlert_cooldown_suppression
    (fun s => if s == "BTCUSDT" then some 10 else none)
    [("BTCUSDT", 1000)] "BTCUSDT" Signal.long 1001
    (Or.inl rfl) (by decide)

/-- The initial per-pair state created by initializeMarketData: empty book
    with null lastUpdateId, buffering window open. -/
def initialSymbolData : SymbolData :=
  { orderBook := { bids := [], asks := [], lastUpdateId := 0, timestamp := 0 }
    previousOrderBook := { bids := [], asks := [], lastUpdateId := 0, timestamp := 0 }
    bufferingUpdates := true
    needsReinitialization := false }

/-- A depth event carrying one bid change, arriving during the buffering
    window. -/
def eventC7 : DepthEvent := { U := 7, u := 7, b := [(100, 1)], a := [] }

/-- The authoritative snapshot that later ends the buffering window. -/
def snapshotC7 : OrderBook :=
  { bids := [(99, 2)], asks := [(101, 2)], lastUpdateId := 50, timestamp := 9 }

/-- C7 counterexample: an event arriving before the snapshot IS applied to
    the partial pre-snapshot book (the stored book changes while the window
    is still open), and once the snapshot lands the post-snapshot state is
    the same whether or not the event happened: the event is discarded, not
    buffered and replayed. -/
theorem processDepthData_buffering_counterexample :
    (processDepthData initialSymbolData eventC7 5).orderBook
      ≠ initialSymbolData.orderBook
    ∧ (processDepthData initialSymbolData eventC7 5).bufferingUpdates = true
    ∧ snapshotArrives (processDepthData initialSymbolData eventC7 5) snapshotC7
      = snapshotArrives initialSymbolData snapshotC7 := by decide

/-- C7 (amended): while the buffering window is open, processDepthData
    applies each incoming event immediately to the current provisional
    pre-snapshot book through applyDepthUpdate (no sequence validation, no
    buffering), and the arrival of the snapshot replaces the book wholesale,
    so events of the window have no effect on the post-snapshot state. -/
theorem processDepthData_buffering_behavior (s : SymbolData) (e : DepthEvent) (now : Nat)
    (snap : OrderBook) (h : s.bufferingUpdates = true) :
    processDepthData s e now
      = { s with orderBook := applyDepthUpdate e (some s.orderBook) now }
    ∧ snapshotArrives (processDepthData s e now) snap = snapshotArrives s snap := by
  constructor
  · simp [processDepthData, h]
  · simp [processDepthData, snapshotArrives, h]

/-- C7 witness: the buffering-window theorem at the initial state and the
    concrete event. -/
theorem processDepthData_buffering_behavior_witness :
    initialSymbolData.bufferingUpdates = true
    ∧ processDepthData initialSymbolData eventC7 5
      = { initialSymbolData with
            orderBook := applyDepthUpdate eventC7 (some initialSymbolData.orderBook) 5 } :=
  ⟨by decide,
    (processDepthData_buffering_behavior initialSymbolData eventC7 5 snapshotC7 rfl).1⟩

/-- Candle signals for the C9 scenario: bearish price action with a volume
    spike (so the short side has its strong confirming signal). -/
def csC9 : CandleSignals :=
  { emaFast := 1, emaMedium := 1, emaSlow := 1, volumeSpike := true, volumeEMA := 1
    emaBullishCross := false, emaBearishCross := true, buyingPressure := false
    sellingPressure := true, trendConfirmed := false, downtrendConfirmed := false
    nearLowerBand := false, nearUpperBand := false, bbandsSqueeze := false
    isOverbought := false, error := false }

/-- Order-book signals for the C9 scenario: buy-side book strength (strong
    bid imbalance) against bearish price action, triggering the bearish
    divergence veto of the long side, while no bullish divergence fires. -/
def obsC9 : OrderBookSignals :=
  { obsNeutral with strongBidImbalance := true, inDowntrend := true }

/-- A score record qualifying both sides (9/10 each). -/
def scoreC9 : SignalScore := { long := 9, short := 9 }

/-- C9 counterexample: with score.long = 9 the long validation fires its
    bearish-divergence veto and returns the (truthy) neutral string, so
    determineCompositeSignal returns it immediately and never evaluates the
    short side, even though the short validation would return short. -/
theorem determineCompositeSignal_counterexample :
    validateShortSignal scoreC9 (detectDivergence csC9 obsC9) csC9 obsC9 candlesA
      = some Signal.short
    ∧ validateLongSignal scoreC9 (detectDivergence csC9 obsC9) csC9 obsC9 candlesA
      = some Signal.neutral
    ∧ determineCompositeSignal csC9 obsC9 candlesA scoreC9 = Signal.neutral := by
  refine ⟨?_, ?_, ?_⟩ <;> with_unfolding_all decide

/-- C9 (amended): determineCompositeSignal always returns exactly one of
    long, short, neutral, evaluating the long side first; but the short side
    is evaluated only when the long validation falls through with null
    (score.long below the required score).  When a long veto rule fires the
    long validation returns the truthy neutral string, which is returned
    directly: the result is neutral even if the short side would have
    produced short. -/
theorem determineCompositeSignal_order (cs : CandleSignals) (obs : OrderBookSignals)
    (candles : List Candle) (score : SignalScore) :
    (determineCompositeSignal cs obs candles score = Signal.long
      ∨ determineCompositeSignal cs obs candles score = Signal.short
      ∨ determineCompositeSignal cs obs candles score = Signal.neutral)
    ∧ (validateLongSignal score (detectDivergence cs obs) cs obs candles = some Signal.neutral
        → determineCompositeSignal cs obs candles score = Signal.neutral)
    ∧ (cs.error = false
        → validateLongSignal score (detectDivergence cs obs) cs obs candles = none
        → determineCompositeSignal cs obs candles score
          = (match validateShortSignal score (detectDivergence cs obs) cs obs candles with
             | some s => s
             | none => Signal.neutral)) := by
  refine ⟨?_, ?_, ?_⟩
  · cases h : determineCompositeSignal cs obs candles score
    · exact Or.inl rfl
    · exact Or.inr (Or.inl rfl)
    · exact Or.inr (Or.inr rfl)
  · intro h
    by_cases herr : cs.error
    · simp [determineCompositeSignal, herr]
    · simp [determineCompositeSignal, herr, h]
  · intro herr h
    simp [determineCompositeSignal, herr, h]

/-- C9 witness: the ordering theorem applied at the C9 scenario, where the
    long veto fires, forcing neutral. -/
theorem determineCompositeSignal_order_witness :
    determineCompositeSignal csC9 obsC9 candlesA scoreC9 = Signal.neutral :=
  (determineCompositeSignal_order csC9 obsC9 candlesA scoreC9).2.1
    (by with_unfolding_all decide)

/-- Modelled from the spec wording of the update branch for comparison: the
    spec orders the steps as remove/re-insert, THEN re-sort, THEN prune, so
    the pruning band would be computed from the true best bid and ask of the
    updated book.  The code orders prune before sort; this definition exists
    only to be compared against the embedded code. -/
def processDiffSpecOrder (data : DepthEvent) (book : OrderBook) (now : Nat) : OrderBook :=
  let copy := deepCopyOrderBook book
  let copy := { copy with bids := applyLevelChanges copy.bids data.b }
  let copy := { copy with asks := applyLevelChanges copy.asks data.a }
  let copy := { copy with bids := sortBids copy.bids, asks := sortAsks copy.asks }
  let copy := cleanupOrderBook copy
  { copy with lastUpdateId := data.u, timestamp := now }

/-- Book for the C6 scenario: one bid at 100, one ask at 300. -/
def bookC6 : OrderBook :=
  { bids := [(100, 1)], asks := [(300, 1)], lastUpdateId := 1, timestamp := 0 }

/-- Event for the C6 scenario: inserts a better bid at 200. -/
def eventC6 : DepthEvent := { U := 2, u := 2, b := [(200, 1)], a := [] }

/-- C6 counterexample: the code prunes BEFORE re-sorting, so the band is
    computed from the stored-first levels (old best bid 100, mid 200, band
    [180, 220]) and the new bid at 200 survives while the ask at 300 is
    pruned; with the spec order (sort first) the true mid is 250, the band is
    [225, 275], and BOTH levels are pruned.  The results differ, refuting the
    claimed step order and the true-best-bid band. -/
theorem processIncrementalDepthUpdate_order_counterexample :
    (processIncrementalDepthUpdate eventC6 (some bookC6) 3).1
      = some { bids := [(200, 1)], asks := [], lastUpdateId := 2, timestamp := 3 }
    ∧ processDiffSpecOrder eventC6 bookC6 3
      = { bids := [], asks := [], lastUpdateId := 2, timestamp := 3 }
    ∧ (processIncrementalDepthUpdate eventC6 (some bookC6) 3).1
      ≠ some (processDiffSpecOrder eventC6 bookC6 3) := by
  refine ⟨?_, ?_, ?_⟩ <;> with_unfolding_all decide

/-- C6 (amended): in the update branch the code applies each (price, qty)
    change by removing any level at that price and re-inserting iff qty > 0,
    then applies price-band and level-count pruning to the NOT-yet-re-sorted
    sides (so the band comes from the first stored level of each side, and
    level-count pruning keeps the first 500 levels in storage order), and
    only then re-sorts each side; lastUpdateId becomes event.u and the
    timestamp is refreshed. -/
theorem processIncrementalDepthUpdate_update_branch (book : OrderBook) (e : DepthEvent)
    (now : Nat) (_h0 : book.lastUpdateId ≠ 0) (h1 : ¬ e.u ≤ book.lastUpdateId)
    (h2 : ¬ e.U > book.lastUpdateId + 100) :
    (processIncrementalDepthUpdate e (some book) now).1
      = some { cleanupOrderBook
                 { book with
                     bids := applyLevelChanges book.bids e.b
                     asks := applyLevelChanges book.asks e.a } with
               bids := sortBids (cleanupOrderBook
                 { book with
                     bids := applyLevelChanges book.bids e.b
                     asks := applyLevelChanges book.asks e.a }).bids
               asks := sortAsks (cleanupOrderBook
                 { book with
                     bids := applyLevelChanges book.bids e.b
                     asks := applyLevelChanges book.asks e.a }).asks
               lastUpdateId := e.u
               timestamp := now } := by
  simp only [processIncrementalDepthUpdate]
  rw [if_neg (fun h => h1 h.2), if_neg (fun h => h2 h.2)]
  simp [deepCopyOrderBook]

/-- C6 witness: the update-branch decomposition at the C6 book and event. -/
theorem processIncrementalDepthUpdate_update_branch_witness :
    (processIncrementalDepthUpdate eventC6 (some bookC6) 3).1
      = some { cleanupOrderBook
                 { bookC6 with
                     bids := applyLevelChanges bookC6.bids eventC6.b
                     asks := applyLevelChanges bookC6.asks eventC6.a } with
               bids := sortBids (cleanupOrderBook
                 { bookC6 with
                     bids := applyLevelChanges bookC6.bids eventC6.b
                     asks := applyLevelChanges bookC6.asks eventC6.a }).bids
               asks := sortAsks (cleanupOrderBook
                 { bookC6 with
                     bids := applyLevelChanges bookC6.bids eventC6.b
                     asks := applyLevelChanges bookC6.asks eventC6.a }).asks
               lastUpdateId := eventC6.u
               timestamp := 3 } :=
  processIncrementalDepthUpdate_update_branch bookC6 eventC6 3
    (by decide) (by decide) (by decide)

/-- The price components of one side of the book. -/
def levelKeys (l : List OBLevel) : List ℚ := l.map Prod.fst

/-- The book invariant of the spec: bids strictly descending, asks strictly
    ascending (unique prices per side follow). -/
def WellFormedBook (b : OrderBook) : Prop :=
  b.bids.Pairwise (fun x y => y.1 < x.1) ∧ b.asks.Pairwise (fun x y => x.1 < y.1)

/-- Strictly descending prices have no duplicates. -/
lemma nodupKeys_of_strictDesc {l : List OBLevel} (h : l.Pairwise (fun x y => y.1 < x.1)) :
    (levelKeys l).Nodup := by
  exact List.pairwise_map.mpr (h.imp fun hlt => ne_of_gt hlt)

/-- Strictly ascending prices have no duplicates. -/
lemma nodupKeys_of_strictAsc {l : List OBLevel} (h : l.Pairwise (fun x y => x.1 < y.1)) :
    (levelKeys l).Nodup := by
  exact List.pairwise_map.mpr (h.imp fun hlt => ne_of_lt hlt)

/-- Applying one (price, qty) change keeps the prices of a side duplicate
    free: every old level at that price is filtered out before the push. -/
lemma nodupKeys_applyLevelChange {side : List OBLevel} (chg : OBLevel)
    (h : (levelKeys side).Nodup) : (levelKeys (applyLevelChange side chg)).Nodup := by
  have hfil : (levelKeys (side.filter (fun lvl => decide (lvl.1 ≠ chg.1)))).Nodup :=
    h.sublist ((side.filter_sublist).map Prod.fst)
  unfold applyLevelChange
  split
  · rw [levelKeys, List.map_append]
    rw [List.nodup_append]
    refine ⟨hfil, by simp, ?_⟩
    intro a ha hb
    simp only [List.map_cons, List.map_nil, List.mem_singleton] at hb
    subst hb
    rcases List.mem_map.mp ha with ⟨lvl, hmem, hfst⟩
    rcases List.mem_filter.mp hmem with ⟨-, hne⟩
    exact (of_decide_eq_true hne) hfst
  · exact hfil

/-- The forEach over a whole event side keeps prices duplicate free. -/
lemma nodupKeys_applyLevelChanges (changes : List OBLevel) :
    ∀ side : List OBLevel, (levelKeys side).Nodup
      → (levelKeys (applyLevelChanges side changes)).Nodup := by
  induction changes with
  | nil => exact fun side h => h
  | cons c cs ih => exact fun side h => ih _ (nodupKeys_applyLevelChange c h)

/-- cleanupOrderBook only removes bid levels. -/
lemma cleanupOrderBook_bids_sublist (b : OrderBook) :
    (cleanupOrderBook b).bids.Sublist b.bids := by
  unfold cleanupOrderBook
  split
  · exact List.Sublist.refl _
  · split
    · dsimp only
      split
      · exact (List.take_sublist _ _).trans (List.filter_sublist _)
      · exact List.filter_sublist _
    · exact List.Sublist.refl _

/-- cleanupOrderBook only removes ask levels. -/
lemma cleanupOrderBook_asks_sublist (b : OrderBook) :
    (cleanupOrderBook b).asks.Sublist b.asks := by
  unfold cleanupOrderBook
  split
  · exact List.Sublist.refl _
  · split
    · dsimp only
      split
      · exact (List.take_sublist _ _).trans (List.filter_sublist _)
      · exact List.filter_sublist _
    · exact List.Sublist.refl _

/-- Either cleanup skipped (one side empty: the book is returned untouched)
    or both sides come out with at most 500 levels. -/
lemma cleanupOrderBook_cases (b : OrderBook) :
    ((b.bids.length = 0 ∨ b.asks.length = 0) ∧ cleanupOrderBook b = b)
    ∨ ((cleanupOrderBook b).bids.length ≤ 500 ∧ (cleanupOrderBook b).asks.length ≤ 500) := by
  unfold cleanupOrderBook
  split
  · exact Or.inl ⟨by assumption, rfl⟩
  · rename_i hne
    rcases b with ⟨bids, asks, lastId, ts⟩
    rcases bids with - | ⟨bhd, btl⟩
    · exact absurd (Or.inl rfl) hne
    rcases asks with - | ⟨ahd, atl⟩
    · exact absurd (Or.inr rfl) hne
    refine Or.inr ?_
    dsimp only [List.head?_cons]
    split_ifs with h1 h2 <;> refine ⟨?_, ?_⟩ <;>
      (try simp only [List.length_take]) <;> omega

/-- Sorting with the bid comparator yields strictly descending prices as soon
    as the prices are duplicate free. -/
lemma strictDesc_sortBids {l : List OBLevel} (h : (levelKeys l).Nodup) :
    (sortBids l).Pairwise (fun x y => y.1 < x.1) := by
  have hs : (sortBids l).Pairwise bidLE := List.sorted_insertionSort bidLE l
  have hperm : (sortBids l).Perm l := List.perm_insertionSort bidLE l
  have hnd : (levelKeys (sortBids l)).Nodup := ((hperm.map Prod.fst).nodup_iff).mpr h
  have hne : (sortBids l).Pairwise (fun x y => x.1 ≠ y.1) := List.pairwise_map.mp hnd
  exact (hs.and hne).imp fun hp => lt_of_le_of_ne hp.1 hp.2.symm

/-- Sorting with the ask comparator yields strictly ascending prices as soon
    as the prices are duplicate free. -/
lemma strictAsc_sortAsks {l : List OBLevel} (h : (levelKeys l).Nodup) :
    (sortAsks l).Pairwise (fun x y => x.1 < y.1) := by
  have hs : (sortAsks l).Pairwise askLE := List.sorted_insertionSort askLE l
  have hperm : (sortAsks l).Perm l := List.perm_insertionSort askLE l
  have hnd : (levelKeys (sortAsks l)).Nodup := ((hperm.map Prod.fst).nodup_iff).mpr h
  have hne : (sortAsks l).Pairwise (fun x y => x.1 ≠ y.1) := List.pairwise_map.mp hnd
  exact (hs.and hne).imp fun hp => lt_of_le_of_ne hp.1 hp.2

/-- One step of diff application: every book that
    processIncrementalDepthUpdate returns on a well-formed book is
    well-formed, and when the update branch ran (the event id advanced the
    cursor) and both sides came out non-empty, both sides hold at most 500
    levels. -/
lemma processIncrementalDepthUpdate_step (book : OrderBook) (e : DepthEvent) (now : Nat)
    (b' : OrderBook) (hwf : WellFormedBook book)
    (h : (processIncrementalDepthUpdate e (some book) now).1 = some b') :
    WellFormedBook b'
    ∧ (book.lastUpdateId < e.u → b'.bids ≠ [] → b'.asks ≠ []
        → b'.bids.length ≤ 500 ∧ b'.asks.length ≤ 500) := by
  simp only [processIncrementalDepthUpdate] at h
  split at h
  · rename_i hstale
    rw [Option.some.injEq] at h
    subst h
    exact ⟨hwf, fun hlt _ _ => absurd hstale.2 (by omega)⟩
  · split at h
    · exact absurd h (by simp)
    · rw [Option.some.injEq] at h
      subst h
      have hnb : (levelKeys (applyLevelChanges (deepCopyOrderBook book).bids e.b)).Nodup :=
        nodupKeys_applyLevelChanges e.b _ (nodupKeys_of_strictDesc hwf.1)
      have hna : (levelKeys (applyLevelChanges (deepCopyOrderBook book).asks e.a)).Nodup :=
        nodupKeys_applyLevelChanges e.a _ (nodupKeys_of_strictAsc hwf.2)
      set mid : OrderBook :=
        { bids := applyLevelChanges (deepCopyOrderBook book).bids e.b
          asks := applyLevelChanges (deepCopyOrderBook book).asks e.a
          lastUpdateId := (deepCopyOrderBook book).lastUpdateId
          timestamp := (deepCopyOrderBook book).timestamp } with hmid
      have hnb2 : (levelKeys (cleanupOrderBook mid).bids).Nodup :=
        hnb.sublist ((cleanupOrderBook_bids_sublist mid).map Prod.fst)
      have hna2 : (levelKeys (cleanupOrderBook mid).asks).Nodup :=
        hna.sublist ((cleanupOrderBook_asks_sublist mid).map Prod.fst)
      refine ⟨⟨strictDesc_sortBids hnb2, strictAsc_sortAsks hna2⟩, ?_⟩
      intro _ hbne hane
      rcases cleanupOrderBook_cases mid with ⟨hzero, hskip⟩ | ⟨hb500, ha500⟩
      · exfalso
        rcases hzero with hz | hz
        · refine hbne ?_
          dsimp only
          rw [hskip]
          have : mid.bids = [] := List.length_eq_zero.mp hz
          rw [this]
          rfl
        · refine hane ?_
          dsimp only
          rw [hskip]
          have : mid.asks = [] := List.length_eq_zero.mp hz
          rw [this]
          rfl
      · constructor
        · dsimp only
          rw [sortBids, List.length_insertionSort]
          exact hb500
        · dsimp only
          rw [sortAsks, List.length_insertionSort]
          exact ha500

/-- The well-formedness invariant survives any sequence of diff applications
    (a GAP keeps the previous book, as processDepthData does). -/
lemma applyDiffs_wf (events : List (DepthEvent × Nat)) :
    ∀ book : OrderBook, WellFormedBook book → WellFormedBook (applyDiffs book events) := by
  induction events with
  | nil => exact fun book h => h
  | cons en rest ih =>
    intro book h
    show WellFormedBook (applyDiffs
      (match (processIncrementalDepthUpdate en.1 (some book) en.2).1 with
        | none => book
        | some updated => updated) rest)
    cases hres : (processIncrementalDepthUpdate en.1 (some book) en.2).1 with
    | none => exact ih book h
    | some b' =>
      exact ih b' (processIncrementalDepthUpdate_step book en.1 en.2 b' h hres).1

/-- C5 (amended): starting from a well-formed snapshot, after any sequence of
    diff applications the book still has strictly descending bids, strictly
    ascending asks and no duplicate price on either side; and any further
    diff that advances the cursor returns a book that, whenever BOTH its
    sides are non-empty, holds at most 500 levels per side.  The
    unconditional 500-level bound of the claim is false: when one side is
    empty cleanupOrderBook returns without pruning anything (and a stale
    event returns an over-full book unchanged), see the counterexample. -/
theorem applyDiffs_invariant (book : OrderBook) (events : List (DepthEvent × Nat))
    (hwf : WellFormedBook book) :
    (WellFormedBook (applyDiffs book events)
      ∧ (levelKeys (applyDiffs book events).bids).Nodup
      ∧ (levelKeys (applyDiffs book events).asks).Nodup)
    ∧ ∀ (e : DepthEvent) (now : Nat) (b' : OrderBook),
        (processIncrementalDepthUpdate e (some (applyDiffs book events)) now).1 = some b'
        → WellFormedBook b'
          ∧ ((applyDiffs book events).lastUpdateId < e.u → b'.bids ≠ [] → b'.asks ≠ []
              → b'.bids.length ≤ 500 ∧ b'.asks.length ≤ 500) := by
  have hfold := applyDiffs_wf events book hwf
  refine ⟨⟨hfold, nodupKeys_of_strictDesc hfold.1, nodupKeys_of_strictAsc hfold.2⟩, ?_⟩
  intro e now b' h
  exact processIncrementalDepthUpdate_step _ e now b' hfold h

/-- A well-formed snapshot with 501 bid levels and no asks (the snapshot REST
    endpoint is fetched with limit 1000, so snapshots may exceed 500 levels
    per side). -/
def bigBookC5 : OrderBook :=
  { bids := (List.range 501).map (fun i => (((501 - i : ℕ) : ℚ), 1))
    asks := []
    lastUpdateId := 1
    timestamp := 0 }

/-- An empty diff that advances the cursor past the snapshot. -/
def eventC5 : DepthEvent := { U := 2, u := 2, b := [], a := [] }

/-- The book bigBookC5 after the level changes of eventC5 (none) are applied,
    before pruning and sorting. -/
def midC5 : OrderBook :=
  { bids := applyLevelChanges bigBookC5.bids eventC5.b
    asks := applyLevelChanges bigBookC5.asks eventC5.a
    lastUpdateId := bigBookC5.lastUpdateId
    timestamp := bigBookC5.timestamp }

set_option maxRecDepth 8000 in
/-- C5 counterexample: a well-formed 501-bid no-ask snapshot plus one valid
    in-sequence diff yields a book with 501 bid levels: cleanupOrderBook
    skips all pruning because the ask side is empty, so the claimed
    at-most-500-levels bound is violated. -/
theorem applyDiffs_level_bound_counterexample :
    WellFormedBook bigBookC5
    ∧ ¬ (applyDiffs bigBookC5 [(eventC5, 0)]).bids.length ≤ 500 := by
  constructor
  · constructor
    · show ((List.range 501).map (fun i => (((501 - i : ℕ) : ℚ), (1:ℚ)))).Pairwise
        (fun x y => y.1 < x.1)
      refine List.pairwise_map.mpr ?_
      refine (List.pairwise_lt_range 501).imp_of_mem ?_
      intro a b ha hb hlt
      rw [List.mem_range] at ha hb
      exact_mod_cast Nat.cast_lt.mpr (by omega)
    · exact List.Pairwise.nil
  · have e1 : bigBookC5.lastUpdateId = 1 := rfl
    have e2 : eventC5.u = 2 := rfl
    have e3 : eventC5.U = 2 := rfl
    have h1 : ¬ (bigBookC5.lastUpdateId ≠ 0 ∧ eventC5.u ≤ bigBookC5.lastUpdateId) := by
      rw [e1, e2]; omega
    have h2 : ¬ (bigBookC5.lastUpdateId ≠ 0 ∧ eventC5.U > bigBookC5.lastUpdateId + 100) := by
      rw [e1, e3]; omega
    have hproc : (processIncrementalDepthUpdate eventC5 (some bigBookC5) 0).1
        = some { cleanupOrderBook midC5 with
                 bids := sortBids (cleanupOrderBook midC5).bids
                 asks := sortAsks (cleanupOrderBook midC5).asks
                 lastUpdateId := 2
                 timestamp := 0 } := by
      simp only [processIncrementalDepthUpdate]
      rw [if_neg h1, if_neg h2]
      rfl
    have hclean : cleanupOrderBook midC5 = midC5 := by
      unfold cleanupOrderBook
      rw [if_pos (Or.inr (show midC5.asks.length = 0 from rfl))]
    have hstep : applyDiffs bigBookC5 [(eventC5, 0)]
        = match (processIncrementalDepthUpdate eventC5 (some bigBookC5) 0).1 with
          | none => bigBookC5
          | some updated => updated := rfl
    rw [hstep, hproc]
    dsimp only
    rw [hclean, sortBids, List.length_insertionSort]
    rw [show midC5.bids = bigBookC5.bids from rfl]
    have hlen : bigBookC5.bids.length = 501 := by
      show ((List.range 501).map (fun i => (((501 - i : ℕ) : ℚ), (1:ℚ)))).length = 501
      rw [List.length_map, List.length_range]
    omega

/-- C5 witness: the invariant theorem applied to the snapshot of the spec
    example scenario and the diff that removes the bid at 100. -/
theorem applyDiffs_invariant_witness :
    WellFormedBook (applyDiffs
      { bids := [(100, 5)], asks := [(101, 5)], lastUpdateId := 10, timestamp := 0 }
      [(⟨11, 11, [(100, 0)], []⟩, 7)]) :=
  (applyDiffs_invariant
    { bids := [(100, 5)], asks := [(101, 5)], lastUpdateId := 10, timestamp := 0 }
    [(⟨11, 11, [(100, 0)], []⟩, 7)]
    ⟨List.pairwise_singleton _ _, List.pairwise_singleton _ _⟩).1.1
